import Mathlib

/-!
Shallow embedding of the monitor-bot repository
(src/bot_monitor.py and src/main.py).

The program logs several "monitored" Discord bot accounts in, keeps a
per-account client object (`MonitoredBotClient`), and renders textual
status reports on demand.  The embedding below translates the report
rendering (`MonitorBot._generate_single_bot_report`,
`MonitorBot._generate_full_report`), the name lookup and command handler
(`MonitorBot.monitor_bot_command`), and the environment-variable config
loop (`MonitorBot.setup_hook`) into executable Lean definitions, plus a
spec-modelled event machine for the per-session readiness lifecycle.
-/

/-- Model of Python `str.lower()` (restricted to ASCII case folding,
which is what `Char.toLower` performs; all names compared by the code
under proof are ASCII). -/
def pyLower (s : String) : String := ⟨s.data.map Char.toLower⟩

/-- Model of Python `str.capitalize()`: first character upper-cased,
all remaining characters lower-cased. -/
def pyCapitalize (s : String) : String :=
  match s.data with
  | [] => ""
  | c :: cs => ⟨c.toUpper :: cs.map Char.toLower⟩

/-- Model of Python `sep.join(elements)`. -/
def pyJoin (sep : String) : List String → String
  | [] => ""
  | [x] => x
  | x :: y :: xs => x ++ sep ++ pyJoin sep (y :: xs)

/-- Model of Python float formatting `f"{x:.2f}"` over exact rationals:
the value rounded to a whole number of hundredths, printed with two
digits after the decimal point. -/
def format2f (q : ℚ) : String :=
  let c : ℤ := round (q * 100)
  toString (c / 100) ++ "." ++ (if c % 100 < 10 then "0" else "") ++ toString (c % 100)

/-- The six `discord.ActivityType` members branched on by
`_generate_single_bot_report`. -/
inductive ActivityType where
  | playing
  | streaming
  | listening
  | watching
  | custom
  | competing
deriving DecidableEq, Repr

/-- A `discord.Activity` as read by the report code: its type, its
`name`, and its `url` (only displayed for streaming). -/
structure Activity where
  type : ActivityType
  name : String
  url : String
deriving DecidableEq, Repr

/-- A `discord.Status` value as read by the report code via
`client.status.name`. -/
inductive Status where
  | online
  | idle
  | dnd
  | offline
deriving DecidableEq, Repr

/-- The `name` attribute of a `discord.Status` member. -/
def statusName : Status → String
  | .online => "online"
  | .idle => "idle"
  | .dnd => "dnd"
  | .offline => "offline"

/-- Snapshot of one `MonitoredBotClient` as the report code reads it:
`bot_name` and `is_ready` are the two fields the class itself adds
(`__init__` sets `is_ready = False`; `on_ready` sets it to `True`),
the rest are the `discord.Client` attributes the report reads
(`user`, `guilds` as the list of guild names, `latency` in seconds,
`activity`, `status`). -/
structure MonitoredBotClient where
  bot_name : String
  is_ready : Bool
  user : Option String
  guilds : List String
  latency : ℚ
  activity : Option Activity
  status : Status
deriving DecidableEq, Repr

/-- One line of a single-bot report, one constructor per
`report_message +=` statement in `_generate_single_bot_report`. -/
inductive ReportLine where
  | header (botName : String)
  | statusOnline
  | servers (count : Nat)
  | latencyMs (latencySeconds : ℚ)
  | activityLine (a : Option Activity)
  | userStatus (st : Status)
  | serversList (names : List String)
  | serversListEmpty
  | statusOffline
deriving DecidableEq, Repr

/-- The `activity_str` computation of `_generate_single_bot_report`:
"No activity set" when no activity, otherwise one line per
`discord.ActivityType` branch (with the URL for streaming). -/
def activityStr : Option Activity → String
  | none => "No activity set"
  | some act =>
    match act.type with
    | .playing => "Playing: " ++ act.name
    | .streaming => "Streaming: " ++ act.name ++ " (" ++ act.url ++ ")"
    | .listening => "Listening to: " ++ act.name
    | .watching => "Watching: " ++ act.name
    | .custom => "Custom Status: " ++ act.name
    | .competing => "Competing in: " ++ act.name

/-- The text of each report line, exactly as the f-strings of
`_generate_single_bot_report` produce it (without the trailing
newline, which `renderReport` appends to every line). -/
def ReportLine.render : ReportLine → String
  | .header n => "--- **" ++ n ++ "** ---"
  | .statusOnline => "Status: Online ✅"
  | .servers c => "Servers: " ++ toString c ++ " 🌐"
  | .latencyMs secs => "Latency: " ++ format2f (secs * 1000) ++ " ms ⏱️"
  | .activityLine a => "Activity: " ++ activityStr a
  | .userStatus st => "User Status: " ++ pyCapitalize (statusName st)
  | .serversList names => "Servers List: " ++ pyJoin ", " names
  | .serversListEmpty => "Servers List: Not in any servers."
  | .statusOffline => "Status: Offline ❌ (Could not log in or not ready yet)"

/-- The sequence of lines emitted by
`MonitorBot._generate_single_bot_report` (src/bot_monitor.py lines
179-219): always the header; then, when `client.is_ready and
client.user` holds, the online stats block with the servers list (or
the not-in-any-servers line when `client.guilds` is empty); otherwise
the offline line. -/
def reportLines (c : MonitoredBotClient) : List ReportLine :=
  ReportLine.header c.bot_name ::
    (if c.is_ready && c.user.isSome then
      [ReportLine.statusOnline,
       ReportLine.servers c.guilds.length,
       ReportLine.latencyMs c.latency,
       ReportLine.activityLine c.activity,
       ReportLine.userStatus c.status] ++
      (if !c.guilds.isEmpty then [ReportLine.serversList c.guilds]
       else [ReportLine.serversListEmpty])
    else [ReportLine.statusOffline])

/-- Joins report lines into the report string; each
`report_message += f"...\n"` of the source contributes its line text
followed by a newline. -/
def renderReport (lines : List ReportLine) : String :=
  String.join (lines.map (fun l => l.render ++ "\n"))

/-- `MonitorBot._generate_single_bot_report` as a string: the rendered
report lines. -/
def generate_single_bot_report (c : MonitoredBotClient) : String :=
  renderReport (reportLines c)

/-- The header with which `_generate_full_report` initialises
`report_message`. -/
def reportHeader : String := "📊 **Discord Bot Monitoring Report** 📊\n\n"

/-- `MonitorBot._generate_full_report` (src/bot_monitor.py lines
221-232): starts from the header and, for each monitored client in
order, appends that client's single-bot report and then a newline. -/
def generate_full_report (clients : List MonitoredBotClient) : String :=
  clients.foldl (fun acc c => acc ++ generate_single_bot_report c ++ "\n") reportHeader

/-- The name lookup inside `MonitorBot.monitor_bot_command`
(src/bot_monitor.py lines 149-155): lower-case the requested name
once, then scan `monitored_bot_clients` in insertion order and return
the first client whose registered name lower-cases to it. -/
def findMonitoredClient (clients : List (String × MonitoredBotClient))
    (bot_name : String) : Option MonitoredBotClient :=
  let bot_name_lower := pyLower bot_name
  (clients.find? (fun p => pyLower p.1 == bot_name_lower)).map Prod.snd

/-- The single ASCII apostrophe character, `'` (U+0027). -/
def apos : String := String.singleton (Char.ofNat 39)

/-- The error text `monitor_bot_command` sends when the requested name
matches no configured bot: it quotes the requested name and joins all
configured bot names with a comma and space
(src/bot_monitor.py line 161). -/
def notFoundMessage (bot_name : String) (names : List String) : String :=
  "Bot " ++ apos ++ bot_name ++ apos ++
    " not found or not configured for monitoring. Available bots: " ++ pyJoin ", " names

/-- The redirect text sent when the command is used outside the
designated monitoring channel (src/bot_monitor.py line 146). -/
def redirectMessage (target_channel_id : Int) : String :=
  "Please use this command in the designated monitoring channel: <#" ++
    toString target_channel_id ++ ">"

/-- The three possible messages `monitor_bot_command` sends, one
constructor per `interaction.followup.send` call site. -/
inductive CommandReply where
  | redirect (msg : String)
  | report (msg : String)
  | notFound (msg : String)
deriving DecidableEq, Repr

/-- `MonitorBot.monitor_bot_command` (src/bot_monitor.py lines
137-161) after deferring the interaction: redirect when invoked
outside the target channel; otherwise look the requested bot up
case-insensitively and send either its single-bot report or the
not-found message listing the configured names. -/
def monitor_bot_command (target_channel_id channel_id : Int)
    (clients : List (String × MonitoredBotClient)) (bot_name : String) : CommandReply :=
  if channel_id ≠ target_channel_id then
    CommandReply.redirect (redirectMessage target_channel_id)
  else
    match findMonitoredClient clients bot_name with
    | some found_client => CommandReply.report (generate_single_bot_report found_client)
    | none => CommandReply.notFound (notFoundMessage bot_name (clients.map Prod.fst))

/-- One monitored-bot configuration entry, as appended to
`monitored_bots_config` by `setup_hook`. -/
structure BotConfig where
  name : String
  token : String
deriving DecidableEq, Repr

/-- The environment variable name `BOT_TOKEN_i`. -/
def tokenVar (i : Nat) : String := "BOT_TOKEN_" ++ toString i

/-- The environment variable name `BOT_NAME_i`. -/
def nameVar (i : Nat) : String := "BOT_NAME_" ++ toString i

/-- The config-loading `while True` loop of `MonitorBot.setup_hook`
(src/bot_monitor.py lines 56-69, identical in src/main.py lines
61-74), starting at index `i`: read `BOT_TOKEN_i` and `BOT_NAME_i`
with `os.getenv`; when both are present and non-empty (Python
truthiness of `if token and name`) record the pair and continue with
`i + 1`, otherwise stop.  The Python loop is unbounded; here it is
bounded by explicit fuel, which the theorems quantify over. -/
def loadConfigs (env : String → Option String) : Nat → Nat → List BotConfig
  | 0, _ => []
  | fuel + 1, i =>
    match env (tokenVar i), env (nameVar i) with
    | some token, some name =>
      if token = "" ∨ name = "" then []
      else { name := name, token := token } :: loadConfigs env fuel (i + 1)
    | _, _ => []

/-- Modelled from the spec: the SessionState record of §3 for the
per-session lifecycle.  The repository's own code contributes only the
`ready` flag (`MonitoredBotClient.__init__` sets `is_ready = False`;
`on_ready` sets it to `True`, src/bot_monitor.py lines 9-25); the
remaining fields are populated by the external discord.py library and
are modelled from the spec's data model. -/
structure SessionState where
  ready : Bool
  identityLabel : Option String
  guildCount : Nat
  guildNames : List String
  latencyMillis : Option ℚ
  presenceStatus : Status
  activity : Option Activity
deriving DecidableEq, Repr

/-- Modelled from the spec: the session events of §4.1 —
handshake-complete, presence/activity change, and latency
measurement. -/
inductive SessionEvent where
  | handshakeComplete (identity : String) (guilds : List String)
  | presenceUpdate (st : Status) (act : Option Activity)
  | latencyUpdate (ms : ℚ)
deriving DecidableEq, Repr

/-- Modelled from the spec: the state every session starts in —
`ready == false` (set by `MonitoredBotClient.__init__` in the source)
and every other field unset. -/
def initialSessionState : SessionState :=
  { ready := false
    identityLabel := none
    guildCount := 0
    guildNames := []
    latencyMillis := none
    presenceStatus := Status.offline
    activity := none }

/-- Modelled from the spec: event application per §4.1.
Handshake-complete (the source's `on_ready`) sets `ready := true` and
populates identity and guild data; presence and latency events,
"received continuously while connected", overwrite only their own
fields and are delivered only on an established (ready) session. -/
def applyEvent (s : SessionState) : SessionEvent → SessionState
  | .handshakeComplete identity guilds =>
    { s with ready := true
             identityLabel := some identity
             guildCount := guilds.length
             guildNames := guilds }
  | .presenceUpdate st act =>
    if s.ready then { s with presenceStatus := st, activity := act } else s
  | .latencyUpdate ms =>
    if s.ready then { s with latencyMillis := some ms } else s

/-- Modelled from the spec: the session state reached from the initial
state by a finite sequence of delivered events. -/
def runEvents (events : List SessionEvent) : SessionState :=
  events.foldl applyEvent initialSessionState

/-- Classifies the report lines that carry per-account statistics:
the latency, activity, presence-status and guild (count or list)
fields.  Used to state that an offline report shows none of them. -/
def isStatField : ReportLine → Bool
  | .servers _ => true
  | .latencyMs _ => true
  | .activityLine _ => true
  | .userStatus _ => true
  | .serversList _ => true
  | .serversListEmpty => true
  | .header _ => false
  | .statusOnline => false
  | .statusOffline => false

/-- `needle` occurs contiguously inside `hay`. -/
def strContains (hay needle : String) : Prop :=
  ∃ l r, hay = l ++ needle ++ r

lemma string_foldl_append (xs : List String) (x : String) :
    xs.foldl (fun r s => r ++ s) x = x ++ xs.foldl (fun r s => r ++ s) "" := by
  induction xs generalizing x with
  | nil => simp
  | cons y ys ih =>
    rw [List.foldl_cons, List.foldl_cons, ih (x ++ y), ih ("" ++ y)]
    simp [String.append_assoc]

lemma string_join_nil : String.join ([] : List String) = "" := rfl

lemma string_join_cons (x : String) (xs : List String) :
    String.join (x :: xs) = x ++ String.join xs := by
  show List.foldl (fun r s => r ++ s) "" (x :: xs) =
    x ++ List.foldl (fun r s => r ++ s) "" xs
  rw [List.foldl_cons, string_foldl_append, String.empty_append]

lemma renderReport_cons (l : ReportLine) (ls : List ReportLine) :
    renderReport (l :: ls) = l.render ++ "\n" ++ renderReport ls := by
  simp only [renderReport, List.map_cons, string_join_cons, String.append_assoc]

lemma renderReport_endsWithNewline (lines : List ReportLine) (h : lines ≠ []) :
    ∃ t, renderReport lines = t ++ "\n" := by
  induction lines with
  | nil => exact absurd rfl h
  | cons l ls ih =>
    cases ls with
    | nil =>
      refine ⟨ReportLine.render l, ?_⟩
      simp [renderReport, String.join, string_join_cons]
    | cons m ms =>
      obtain ⟨t, ht⟩ := ih (by simp)
      exact ⟨l.render ++ "\n" ++ t, by rw [renderReport_cons, ht]; simp [String.append_assoc]⟩

lemma full_report_foldl (clients : List MonitoredBotClient) (init : String) :
    clients.foldl (fun acc c => acc ++ generate_single_bot_report c ++ "\n") init =
      init ++ String.join (clients.map (fun c => generate_single_bot_report c ++ "\n")) := by
  induction clients generalizing init with
  | nil => simp [String.join]
  | cons c cs ih =>
    rw [List.foldl_cons, ih, List.map_cons, string_join_cons]
    simp [String.append_assoc]

/-- Claim C1: over any sequence of monitored clients, the full report
is the header followed by exactly one per-account section per client,
in input order, each section being exactly the string
`_generate_single_bot_report` returns for that client followed by a
separating newline; and since every section itself ends in a newline,
consecutive sections are separated by a blank line (the third
conjunct exhibits the trailing newline of every section). -/
theorem full_report_composes (clients : List MonitoredBotClient) :
    generate_full_report clients =
      reportHeader ++
        String.join (clients.map (fun c => generate_single_bot_report c ++ "\n")) ∧
    (clients.map (fun c => generate_single_bot_report c ++ "\n")).length = clients.length ∧
    ∀ c : MonitoredBotClient, ∃ t, generate_single_bot_report c = t ++ "\n" := by
  refine ⟨full_report_foldl clients reportHeader, by simp, fun c => ?_⟩
  exact renderReport_endsWithNewline (reportLines c) (by simp [reportLines])

/-- Claim C9: the full report over an empty client sequence is the
header alone, with no per-account sections. -/
theorem full_report_empty_is_header :
    generate_full_report [] = reportHeader ∧
    reportHeader = "📊 **Discord Bot Monitoring Report** 📊\n\n" :=
  ⟨rfl, rfl⟩

/-- Claim C2: when a monitored client is not ready, its report is
exactly the header line for its account name followed by the offline
marker line; in particular the output contains the offline marker and
the account name, and none of the latency, activity, presence-status
or guild fields appear. -/
theorem offline_report_no_stat_fields (c : MonitoredBotClient)
    (h : c.is_ready = false) :
    reportLines c = [ReportLine.header c.bot_name, ReportLine.statusOffline] ∧
    strContains (generate_single_bot_report c) ("--- **" ++ c.bot_name ++ "** ---") ∧
    strContains (generate_single_bot_report c)
      "Status: Offline ❌ (Could not log in or not ready yet)" ∧
    ∀ l ∈ reportLines c, isStatField l = false := by
  have hl : reportLines c = [ReportLine.header c.bot_name, ReportLine.statusOffline] := by
    simp [reportLines, h]
  have hs : generate_single_bot_report c =
      ("--- **" ++ c.bot_name ++ "** ---" ++ "\n") ++
        ("Status: Offline ❌ (Could not log in or not ready yet)" ++ "\n") := by
    rw [generate_single_bot_report, hl, renderReport_cons, renderReport_cons]
    simp [renderReport, ReportLine.render, string_join_nil, String.append_assoc]
  refine ⟨hl, ?_, ?_, ?_⟩
  · exact ⟨"", "\n" ++ ("Status: Offline ❌ (Could not log in or not ready yet)" ++ "\n"),
      by rw [hs]; simp [String.append_assoc]⟩
  · exact ⟨"--- **" ++ c.bot_name ++ "** ---" ++ "\n", "\n",
      by rw [hs]; simp [String.append_assoc]⟩
  · intro l hl2
    rw [hl] at hl2
    simp only [List.mem_cons, List.not_mem_nil, or_false] at hl2
    rcases hl2 with rfl | rfl <;> rfl

/-- Claim C3: when a monitored client is ready, any guild count shown
in its report equals the length of the list of its guild names (the
code derives both from the same `client.guilds` list). -/
theorem guild_count_matches_guild_names (c : MonitoredBotClient) (n : Nat)
    (h : c.is_ready = true) (hn : ReportLine.servers n ∈ reportLines c) :
    n = c.guilds.length := by
  by_cases hu : c.user.isSome
  · by_cases hg : c.guilds.isEmpty <;> simp [reportLines, h, hu, hg] at hn <;> exact hn
  · simp [reportLines, h, hu] at hn

/-- A monitored client that never became ready. -/
def wBeta : MonitoredBotClient :=
  { bot_name := "Beta"
    is_ready := false
    user := none
    guilds := []
    latency := 0
    activity := none
    status := Status.offline }

/-- A monitored client that completed login: ready, with a user, two
guilds, a measured latency, an activity and an online status. -/
def wAlpha : MonitoredBotClient :=
  { bot_name := "Alpha"
    is_ready := true
    user := some "AlphaUser"
    guilds := ["G1", "G2"]
    latency := 42.17
    activity := some { type := ActivityType.playing, name := "Chess", url := "" }
    status := Status.online }

/-- A monitored client whose ready flag is raised but whose `user`
attribute is still unset. -/
def wReadyNoUser : MonitoredBotClient :=
  { bot_name := "Gamma"
    is_ready := true
    user := none
    guilds := ["G1"]
    latency := 0
    activity := none
    status := Status.online }

/-- Witness for claim C2 at the concrete never-ready client `wBeta`. -/
theorem offline_report_no_stat_fields_witness :
    wBeta.is_ready = false ∧
    (reportLines wBeta = [ReportLine.header wBeta.bot_name, ReportLine.statusOffline] ∧
     strContains (generate_single_bot_report wBeta) ("--- **" ++ wBeta.bot_name ++ "** ---") ∧
     strContains (generate_single_bot_report wBeta)
       "Status: Offline ❌ (Could not log in or not ready yet)" ∧
     ∀ l ∈ reportLines wBeta, isStatField l = false) :=
  ⟨rfl, offline_report_no_stat_fields wBeta rfl⟩

/-- Witness for claim C3 at the concrete ready client `wAlpha`, whose
report shows the server count 2 = `["G1", "G2"].length`. -/
theorem guild_count_matches_guild_names_witness :
    wAlpha.is_ready = true ∧ ReportLine.servers 2 ∈ reportLines wAlpha ∧
    2 = wAlpha.guilds.length :=
  ⟨rfl, by decide, guild_count_matches_guild_names wAlpha 2 rfl (by decide)⟩

/-- Counterexample to claim C4 as stated: `wReadyNoUser` has
`is_ready = true`, yet its report is the offline block — no status
line, no guild count, no latency, activity, presence or guild list
fields — because `_generate_single_bot_report` additionally requires
`client.user` to be set before rendering the stats block. -/
theorem ready_field_order_cex :
    wReadyNoUser.is_ready = true ∧
    reportLines wReadyNoUser = [ReportLine.header "Gamma", ReportLine.statusOffline] ∧
    ReportLine.statusOnline ∉ reportLines wReadyNoUser ∧
    ReportLine.servers wReadyNoUser.guilds.length ∉ reportLines wReadyNoUser :=
  ⟨rfl, rfl, by decide, by decide⟩

/-- Claim C4 (amended): for every client with `ready == true` whose
identity (`user`) field is populated, the report lines come in exactly
the order: status line, guild count, latency, activity line,
presence-status line, then the guild-name list (or the
not-in-any-servers line when the guild list is empty); the latency
line shows the latency in milliseconds formatted to two decimal
places, the presence-status line shows the status capitalized, and the
activity line is one of the six activity kinds or "No activity set"
(per `activityStr`). -/
theorem ready_report_field_order (c : MonitoredBotClient)
    (h : c.is_ready = true) (hu : c.user.isSome = true) :
    reportLines c =
      ReportLine.header c.bot_name ::
        ReportLine.statusOnline ::
        ReportLine.servers c.guilds.length ::
        ReportLine.latencyMs c.latency ::
        ReportLine.activityLine c.activity ::
        ReportLine.userStatus c.status ::
        (if !c.guilds.isEmpty then [ReportLine.serversList c.guilds]
         else [ReportLine.serversListEmpty]) ∧
    (ReportLine.latencyMs c.latency).render =
      "Latency: " ++ format2f (c.latency * 1000) ++ " ms ⏱️" ∧
    (ReportLine.userStatus c.status).render =
      "User Status: " ++ pyCapitalize (statusName c.status) ∧
    (ReportLine.activityLine c.activity).render = "Activity: " ++ activityStr c.activity := by
  refine ⟨?_, rfl, rfl, rfl⟩
  simp [reportLines, h, hu]

/-- Witness for the amended claim C4 at the concrete ready client
`wAlpha`. -/
theorem ready_report_field_order_witness :
    wAlpha.is_ready = true ∧ wAlpha.user.isSome = true ∧
    (reportLines wAlpha =
      ReportLine.header wAlpha.bot_name ::
        ReportLine.statusOnline ::
        ReportLine.servers wAlpha.guilds.length ::
        ReportLine.latencyMs wAlpha.latency ::
        ReportLine.activityLine wAlpha.activity ::
        ReportLine.userStatus wAlpha.status ::
        (if !wAlpha.guilds.isEmpty then [ReportLine.serversList wAlpha.guilds]
         else [ReportLine.serversListEmpty]) ∧
    (ReportLine.latencyMs wAlpha.latency).render =
      "Latency: " ++ format2f (wAlpha.latency * 1000) ++ " ms ⏱️" ∧
    (ReportLine.userStatus wAlpha.status).render =
      "User Status: " ++ pyCapitalize (statusName wAlpha.status) ∧
    (ReportLine.activityLine wAlpha.activity).render =
      "Activity: " ++ activityStr wAlpha.activity) :=
  ⟨rfl, rfl, ready_report_field_order wAlpha rfl rfl⟩

/-- Claim C10: the ready branch of `_generate_single_bot_report`
requires both the ready flag and a populated `user`; a client with
`is_ready = true` but no user gets the offline line instead of the
stats block. -/
theorem ready_without_user_reports_offline (c : MonitoredBotClient)
    (h1 : c.is_ready = true) (h2 : c.user = none) :
    reportLines c = [ReportLine.header c.bot_name, ReportLine.statusOffline] := by
  simp [reportLines, h1, h2]

/-- Witness for claim C10 at the concrete client `wReadyNoUser`. -/
theorem ready_without_user_reports_offline_witness :
    wReadyNoUser.is_ready = true ∧ wReadyNoUser.user = none ∧
    reportLines wReadyNoUser =
      [ReportLine.header wReadyNoUser.bot_name, ReportLine.statusOffline] :=
  ⟨rfl, rfl, ready_without_user_reports_offline wReadyNoUser rfl rfl⟩

lemma loadConfigs_step_pair (env : String → Option String) (fuel i : Nat)
    (t n : String) (ht : env (tokenVar i) = some t) (hn : env (nameVar i) = some n)
    (htn : t ≠ "") (hnn : n ≠ "") :
    loadConfigs env (fuel + 1) i =
      { name := n, token := t } :: loadConfigs env fuel (i + 1) := by
  simp [loadConfigs, ht, hn, htn, hnn]

lemma loadConfigs_step_gap (env : String → Option String) (fuel i : Nat)
    (h : env (tokenVar i) = none ∨ env (nameVar i) = none) :
    loadConfigs env (fuel + 1) i = [] := by
  rcases h with h | h
  · simp [loadConfigs, h]
  · cases hc : env (tokenVar i) <;> simp [loadConfigs, h, hc]

/-- Claim C5: the config loop reads the numbered token/name pairs from
index 1 and stops at the first missing pair: with pairs 1-3 present
(and non-empty) and pair 4 absent, exactly the three configurations
for indices 1-3 are loaded, for any fuel bound of at least 4 on the
unbounded Python loop, and with no assumption at all on pair 5 or any
later index. -/
theorem config_stop_at_first_gap (env : String → Option String)
    (t1 n1 t2 n2 t3 n3 : String)
    (ht1 : env (tokenVar 1) = some t1) (ht1n : t1 ≠ "")
    (hn1 : env (nameVar 1) = some n1) (hn1n : n1 ≠ "")
    (ht2 : env (tokenVar 2) = some t2) (ht2n : t2 ≠ "")
    (hn2 : env (nameVar 2) = some n2) (hn2n : n2 ≠ "")
    (ht3 : env (tokenVar 3) = some t3) (ht3n : t3 ≠ "")
    (hn3 : env (nameVar 3) = some n3) (hn3n : n3 ≠ "")
    (h4 : env (tokenVar 4) = none ∨ env (nameVar 4) = none)
    (fuel : Nat) (hfuel : 4 ≤ fuel) :
    loadConfigs env fuel 1 =
      [{ name := n1, token := t1 }, { name := n2, token := t2 },
       { name := n3, token := t3 }] := by
  obtain ⟨k, rfl⟩ : ∃ k, fuel = k + 1 + 1 + 1 + 1 := ⟨fuel - 4, by omega⟩
  rw [loadConfigs_step_pair env _ 1 t1 n1 ht1 hn1 ht1n hn1n,
    show (1 : Nat) + 1 = 2 from rfl,
    loadConfigs_step_pair env _ 2 t2 n2 ht2 hn2 ht2n hn2n,
    show (2 : Nat) + 1 = 3 from rfl,
    loadConfigs_step_pair env _ 3 t3 n3 ht3 hn3 ht3n hn3n,
    show (3 : Nat) + 1 = 4 from rfl,
    loadConfigs_step_gap env k 4 h4]

/-- A concrete environment: token/name pairs 1-3 present, pair 4
absent, pair 5 present again. -/
def envGap4 : String → Option String :=
  fun v =>
    if v = "BOT_TOKEN_1" then some "t1" else
    if v = "BOT_NAME_1" then some "Alpha" else
    if v = "BOT_TOKEN_2" then some "t2" else
    if v = "BOT_NAME_2" then some "Beta" else
    if v = "BOT_TOKEN_3" then some "t3" else
    if v = "BOT_NAME_3" then some "Gamma" else
    if v = "BOT_TOKEN_5" then some "t5" else
    if v = "BOT_NAME_5" then some "Epsilon" else
    none

/-- Witness for claim C5 at the concrete environment `envGap4`, with
fuel 10: pair 5 is present, yet exactly the three configurations for
indices 1-3 are loaded. -/
theorem config_stop_at_first_gap_witness :
    envGap4 (tokenVar 1) = some "t1" ∧ envGap4 (nameVar 1) = some "Alpha" ∧
    envGap4 (tokenVar 2) = some "t2" ∧ envGap4 (nameVar 2) = some "Beta" ∧
    envGap4 (tokenVar 3) = some "t3" ∧ envGap4 (nameVar 3) = some "Gamma" ∧
    envGap4 (tokenVar 4) = none ∧ envGap4 (tokenVar 5) = some "t5" ∧
    (4 : Nat) ≤ 10 ∧
    loadConfigs envGap4 10 1 =
      [{ name := "Alpha", token := "t1" }, { name := "Beta", token := "t2" },
       { name := "Gamma", token := "t3" }] :=
  ⟨rfl, rfl, rfl, rfl, rfl, rfl, rfl, rfl, by omega,
    config_stop_at_first_gap envGap4 "t1" "Alpha" "t2" "Beta" "t3" "Gamma"
      rfl (by decide) rfl (by decide) rfl (by decide) rfl (by decide)
      rfl (by decide) rfl (by decide) (Or.inl rfl) 10 (by omega)⟩

/-- A monitored client registered under the name "MyBot". -/
def wMyBot : MonitoredBotClient :=
  { bot_name := "MyBot"
    is_ready := false
    user := none
    guilds := []
    latency := 0
    activity := none
    status := Status.offline }

/-- A one-entry client registry whose configured name is "MyBot". -/
def wRegistry : List (String × MonitoredBotClient) := [("MyBot", wMyBot)]

/-- Claim C6: the lookup in `monitor_bot_command` is case-insensitive —
whenever the registry contains an entry named "MyBot", looking up
"MyBot" and looking up "mybot" return the same client, and that
lookup finds a client. -/
theorem lookup_case_insensitive (clients : List (String × MonitoredBotClient))
    (c : MonitoredBotClient) (h : ("MyBot", c) ∈ clients) :
    findMonitoredClient clients "MyBot" = findMonitoredClient clients "mybot" ∧
    (findMonitoredClient clients "MyBot").isSome = true := by
  refine ⟨rfl, ?_⟩
  have h2 : (clients.find? (fun p => pyLower p.1 == pyLower "MyBot")).isSome = true :=
    List.find?_isSome.mpr ⟨("MyBot", c), h, rfl⟩
  simpa [findMonitoredClient] using h2

/-- Witness for claim C6 at the concrete registry `wRegistry`. -/
theorem lookup_case_insensitive_witness :
    ("MyBot", wMyBot) ∈ wRegistry ∧
    (findMonitoredClient wRegistry "MyBot" = findMonitoredClient wRegistry "mybot" ∧
     (findMonitoredClient wRegistry "MyBot").isSome = true) :=
  ⟨List.mem_singleton.mpr rfl,
    lookup_case_insensitive wRegistry wMyBot (List.mem_singleton.mpr rfl)⟩

lemma strContains_append_left (pre hay needle : String)
    (h : strContains hay needle) : strContains (pre ++ hay) needle := by
  obtain ⟨l, r, rfl⟩ := h
  exact ⟨pre ++ l, r, by simp [String.append_assoc]⟩

lemma pyJoin_contains (sep : String) (names : List String) (n : String)
    (h : n ∈ names) : strContains (pyJoin sep names) n := by
  induction names with
  | nil => cases h
  | cons x xs ih =>
    cases xs with
    | nil =>
      rcases List.mem_singleton.mp h with rfl
      exact ⟨"", "", by simp [pyJoin, String.empty_append, String.append_empty]⟩
    | cons y ys =>
      rcases List.mem_cons.mp h with rfl | h2
      · exact ⟨"", sep ++ pyJoin sep (y :: ys),
          by simp [pyJoin, String.empty_append, String.append_assoc]⟩
      · obtain ⟨l, r, hlr⟩ := ih h2
        refine ⟨x ++ sep ++ l, r, ?_⟩
        simp [pyJoin, hlr, String.append_assoc]

/-- Claim C7: when the requested name matches no configured bot under
case-insensitive comparison (and the request comes from the
authorized channel), the command handler returns the user-facing
not-found message, never a rendered report (and, being a total
function of its inputs, it raises nothing); the message contains
every configured bot name. -/
theorem lookup_miss_lists_names (target ch : Int)
    (clients : List (String × MonitoredBotClient)) (bot_name : String)
    (hch : ch = target)
    (hmiss : ∀ p ∈ clients, pyLower (Prod.fst p) ≠ pyLower bot_name) :
    monitor_bot_command target ch clients bot_name =
      CommandReply.notFound (notFoundMessage bot_name (clients.map Prod.fst)) ∧
    (∀ s, monitor_bot_command target ch clients bot_name ≠ CommandReply.report s) ∧
    ∀ n ∈ clients.map Prod.fst,
      strContains (notFoundMessage bot_name (clients.map Prod.fst)) n := by
  have hfind : findMonitoredClient clients bot_name = none := by
    have h0 : clients.find? (fun p => pyLower p.1 == pyLower bot_name) = none :=
      List.find?_eq_none.mpr (fun p hp => by simpa using hmiss p hp)
    simp [findMonitoredClient, h0]
  refine ⟨by simp [monitor_bot_command, hch, hfind], ?_, ?_⟩
  · intro s
    simp [monitor_bot_command, hch, hfind]
  · intro n hn
    have h1 : strContains (pyJoin ", " (clients.map Prod.fst)) n :=
      pyJoin_contains ", " (clients.map Prod.fst) n hn
    unfold notFoundMessage
    exact strContains_append_left _ _ _ h1

/-- Witness for claim C7: requesting "Gamma" against the one-entry
registry `wRegistry` (configured name "MyBot") from the authorized
channel. -/
theorem lookup_miss_lists_names_witness :
    (1 : Int) = 1 ∧
    (∀ p ∈ wRegistry, pyLower (Prod.fst p) ≠ pyLower "Gamma") ∧
    (monitor_bot_command 1 1 wRegistry "Gamma" =
       CommandReply.notFound (notFoundMessage "Gamma" (wRegistry.map Prod.fst)) ∧
     (∀ s, monitor_bot_command 1 1 wRegistry "Gamma" ≠ CommandReply.report s) ∧
     ∀ n ∈ wRegistry.map Prod.fst,
       strContains (notFoundMessage "Gamma" (wRegistry.map Prod.fst)) n) :=
  ⟨rfl, by decide, lookup_miss_lists_names 1 1 wRegistry "Gamma" rfl (by decide)⟩

/-- The fields that must stay unset while a session is not ready. -/
def UnreadyUnset (s : SessionState) : Prop :=
  s.ready = false →
    s.identityLabel = none ∧ s.latencyMillis = none ∧ s.activity = none ∧
      s.guildCount = 0

lemma applyEvent_unready_unset (s : SessionState) (e : SessionEvent)
    (h : UnreadyUnset s) : UnreadyUnset (applyEvent s e) := by
  cases e with
  | handshakeComplete identity guilds =>
    intro hr
    simp [applyEvent] at hr
  | presenceUpdate st act =>
    intro hr
    by_cases hs : s.ready = true
    · simp [applyEvent, hs] at hr
    · simp only [Bool.not_eq_true] at hs
      simp only [applyEvent, hs, Bool.false_eq_true, if_false] at hr ⊢
      exact h hs
  | latencyUpdate ms =>
    intro hr
    by_cases hs : s.ready = true
    · simp [applyEvent, hs] at hr
    · simp only [Bool.not_eq_true] at hs
      simp only [applyEvent, hs, Bool.false_eq_true, if_false] at hr ⊢
      exact h hs

lemma foldl_unready_unset (events : List SessionEvent) (s : SessionState)
    (h : UnreadyUnset s) : UnreadyUnset (events.foldl applyEvent s) := by
  induction events generalizing s with
  | nil => exact h
  | cons e es ih => exact ih (applyEvent s e) (applyEvent_unready_unset s e h)

lemma applyEvent_ready_mono (s : SessionState) (e : SessionEvent)
    (h : s.ready = true) : (applyEvent s e).ready = true := by
  cases e <;> simp [applyEvent, h]

/-- Claim C8: every session starts with `ready = false`; in every
state reachable by delivered events, `ready = false` implies the
identity label, latency and activity are unset and the guild count is
0; and no event application ever takes `ready` from true back to
false. -/
theorem session_ready_invariant (events : List SessionEvent)
    (s : SessionState) (e : SessionEvent)
    (hun : (runEvents events).ready = false) (hr : s.ready = true) :
    initialSessionState.ready = false ∧
    ((runEvents events).identityLabel = none ∧
     (runEvents events).latencyMillis = none ∧
     (runEvents events).activity = none ∧
     (runEvents events).guildCount = 0) ∧
    (applyEvent s e).ready = true :=
  ⟨rfl,
    foldl_unready_unset events initialSessionState (fun _ => ⟨rfl, rfl, rfl, rfl⟩) hun,
    applyEvent_ready_mono s e hr⟩

/-- A session state that has completed its handshake. -/
def wReadySession : SessionState :=
  { ready := true
    identityLabel := some "Alpha"
    guildCount := 2
    guildNames := ["G1", "G2"]
    latencyMillis := some 42
    presenceStatus := Status.online
    activity := none }

/-- Witness for claim C8: the empty event sequence leaves the session
not ready with all fields unset, and a presence event on the ready
state `wReadySession` keeps it ready. -/
theorem session_ready_invariant_witness :
    (runEvents []).ready = false ∧ wReadySession.ready = true ∧
    (initialSessionState.ready = false ∧
     ((runEvents []).identityLabel = none ∧
      (runEvents []).latencyMillis = none ∧
      (runEvents []).activity = none ∧
      (runEvents []).guildCount = 0) ∧
     (applyEvent wReadySession (SessionEvent.presenceUpdate Status.idle none)).ready = true) :=
  ⟨rfl, rfl,
    session_ready_invariant [] wReadySession
      (SessionEvent.presenceUpdate Status.idle none) rfl rfl⟩
